import Mathlib

/-!
Shallow embedding of the juju state layer: the `Machine` entity handle and its
lifecycle, mutator and accessor operations (from `src/state/machine.go`), and
the client-side `State.WatchRemoteApplication` facade wrapper (from
`src/unnamed/part_000`, package `remoterelations`).

The MongoDB collection of machine documents is modelled as an association list
from machine id to document; the mgo/txn transaction runner is modelled by its
effect on that store: a single-op conditional transaction with a `notDead`
assertion either commits (applying the update) or aborts.
-/

namespace Juju

/-- `Life` represents the lifecycle state of an entity: Alive, Dying or Dead. -/
inductive Life where
  | alive
  | dying
  | dead
deriving DecidableEq, Repr

/-- Agent tools, as referenced by `machineDoc.Tools` and `SetAgentTools`
(`Series`/`Arch` are the fields the code inspects; `URL` stands for the rest
of the record). -/
structure Tools where
  Series : String
  Arch : String
  URL : String
deriving DecidableEq, Repr

/-- `machineDoc` mirrors the internal state of a machine in MongoDB:
`Id`, `InstanceId`, `Principals`, `Life`, `Tools` (a nullable pointer,
modelled as `Option`), `TxnRevno` and `Workers` (worker kinds as strings). -/
structure machineDoc where
  Id : Int
  InstanceId : String
  Principals : List String
  life : Life
  tools : Option Tools
  TxnRevno : Int
  Workers : List String
deriving DecidableEq, Repr

/-- A `Machine` handle wraps a cached document snapshot (the `st *State`
back-pointer is implicit: store-touching operations below take the store
as an explicit argument). -/
structure Machine where
  doc : machineDoc
deriving DecidableEq, Repr

/-- Errors surfaced by the state layer: not-found, not-valid, the
`errNotAlive` abort translation, generic `fmt.Errorf` errors, and
`trivial.ErrorContextf`-style wrapping of an inner error with context. -/
inductive Err where
  | notFound (msg : String)
  | notValid (msg : String)
  | notAlive
  | errorf (msg : String)
  | context (msg : String) (e : Err)
deriving DecidableEq, Repr

/-- The machines collection: an association list from machine id to
document (ids are unique in MongoDB; lookups take the first match). -/
abbrev Store := List (Int × machineDoc)

/-- `FindId` point lookup in the collection. -/
def Store.findId : Store → Int → Option machineDoc
  | [], _ => none
  | (j, d) :: rest, id => if j = id then some d else Store.findId rest id

/-- Replace the document stored under `id` (the effect of a committed
single-document update). -/
def Store.updateId : Store → Int → machineDoc → Store
  | [], _, _ => []
  | (j, d) :: rest, id, d' =>
      if j = id then (j, d') :: rest else (j, d) :: Store.updateId rest id d'

/-- Result of running a transaction: committed with the new store contents,
or aborted because an assertion failed. -/
inductive TxnResult where
  | ok (st : Store)
  | aborted
deriving DecidableEq, Repr

/-- The single-op conditional transaction shape both machine mutators submit:
`txn.Op` with `Assert: notDead` and a `$set` update on the document `id`.
The assertion fails (abort) when the document is missing or its `Life` is
Dead; otherwise the update commits. -/
def runNotDeadOp (st : Store) (id : Int) (f : machineDoc → machineDoc) : TxnResult :=
  match st.findId id with
  | none => .aborted
  | some d => if d.life = .dead then .aborted else .ok (st.updateId id (f d))

/-- Result of calling a mutator on a machine handle: the store and handle
afterwards, the returned error (if any), and how many transactions the
mutator submitted to the runner. -/
structure MutatorResult where
  store : Store
  machine : Machine
  error : Option Err
  txnRuns : Nat
deriving DecidableEq, Repr

/-- `Machine.SetInstanceId` sets the provider specific machine id: one
conditional transaction asserting `notDead` updating `instanceid`; on runner
error the wrapped `errNotAlive` abort error is returned and the cached doc is
untouched; on success the cached `InstanceId` is updated. -/
def Machine.SetInstanceId (st : Store) (m : Machine) (id : String) : MutatorResult :=
  match runNotDeadOp st m.doc.Id (fun d => { d with InstanceId := id }) with
  | .aborted =>
      ⟨st, m, some (.context ("cannot set instance id of machine " ++ toString m.doc.Id) .notAlive), 1⟩
  | .ok st' => ⟨st', ⟨{ m.doc with InstanceId := id }⟩, none, 1⟩

/-- `Machine.SetAgentTools` sets the tools the agent is running: empty
`Series` or `Arch` is rejected before any transaction; otherwise one
conditional transaction asserting `notDead` updates `tools`, and only after
commit is the cached `tools` replaced with a copy of the argument. -/
def Machine.SetAgentTools (st : Store) (m : Machine) (t : Tools) : MutatorResult :=
  if t.Series = "" ∨ t.Arch = "" then
    ⟨st, m,
      some (.context ("cannot set agent tools for machine " ++ toString m.doc.Id)
        (.errorf "empty series or arch")), 0⟩
  else
    match runNotDeadOp st m.doc.Id (fun d => { d with tools := some t }) with
    | .aborted =>
        ⟨st, m,
          some (.context ("cannot set agent tools for machine " ++ toString m.doc.Id) .notAlive), 1⟩
    | .ok st' => ⟨st', ⟨{ m.doc with tools := some t }⟩, none, 1⟩

/-- `Machine.Refresh` re-fetches the backing document by `FindId`: when it is
gone, a NotFound error is returned and the cached snapshot is untouched;
when found, the whole cached doc is replaced. -/
def Machine.Refresh (st : Store) (m : Machine) : Machine × Option Err :=
  match st.findId m.doc.Id with
  | none => (m, some (.notFound ("machine " ++ toString m.doc.Id)))
  | some d => (⟨d⟩, none)

/-- `Machine.InstanceId` returns the cached provider instance id, or a
NotFound error when the cached field is the empty string. -/
def Machine.InstanceId (m : Machine) : Except Err String :=
  if m.doc.InstanceId = "" then
    .error (.notFound ("instance id for machine " ++ toString m.doc.Id))
  else .ok m.doc.InstanceId

/-- `Machine.AgentTools` returns the tools the agent is running, or a
NotFound error when the cached `Tools` pointer is nil; on success the code
returns a pointer to a fresh copy (`tools := *m.doc.Tools; return &tools`),
whose value this definition returns. -/
def Machine.AgentTools (m : Machine) : Except Err Tools :=
  match m.doc.tools with
  | none => .error (.notFound ("agent tools for machine " ++ toString m.doc.Id))
  | some t => .ok t

/-- `Machine.Life` returns whether the machine is Alive, Dying or Dead,
read from the cached snapshot. -/
def Machine.Life (m : Machine) : Life :=
  m.doc.life

/-- Modelled from the spec: the generic `ensureDying` helper (in the state
package but not under `src/`). Per §4.1 it submits a conditional transaction
asserting `Life` is less than Dying (i.e. Alive) and setting it to Dying;
an assertion failure because `Life` already advanced is treated as success
(no-op), and a missing document surfaces NotFound. -/
def ensureDying (st : Store) (id : Int) (desc : String) : Except Err Store :=
  match st.findId id with
  | none => .error (.notFound (desc ++ " " ++ toString id))
  | some d =>
      if d.life = .alive then .ok (st.updateId id { d with life := .dying })
      else .ok st

/-- Modelled from the spec: the generic `ensureDead` helper (in the state
package but not under `src/`). Per §4.1 it submits a conditional transaction
asserting `Life` is less than Dead and setting it to Dead; an assertion
failure because `Life` is already Dead is treated as success (no-op), and a
missing document surfaces NotFound. -/
def ensureDead (st : Store) (id : Int) (desc : String) : Except Err Store :=
  match st.findId id with
  | none => .error (.notFound (desc ++ " " ++ toString id))
  | some d =>
      if d.life = .dead then .ok st
      else .ok (st.updateId id { d with life := .dead })

/-- `Machine.EnsureDying` delegates to `ensureDying` and, when that call
returns no error, unconditionally records `Dying` in the handle's cached
`Life` field. -/
def Machine.EnsureDying (st : Store) (m : Machine) : Except Err (Store × Machine) :=
  match ensureDying st m.doc.Id "machine" with
  | .error e => .error e
  | .ok st' => .ok (st', ⟨{ m.doc with life := .dying }⟩)

/-- `Machine.EnsureDead` delegates to `ensureDead` and, when that call
returns no error, records `Dead` in the handle's cached `Life` field. -/
def Machine.EnsureDead (st : Store) (m : Machine) : Except Err (Store × Machine) :=
  match ensureDead st m.doc.Id "machine" with
  | .error e => .error e
  | .ok st' => .ok (st', ⟨{ m.doc with life := .dead }⟩)

/-- One firing of the 3-way `select` inside `WaitAgentAlive`: a presence
`Change` delivered on `ch` (carrying its `Alive` flag), the `time.After`
timeout timer, or the presence watcher's `Dead()` channel. -/
inductive WaitEvent where
  | change (alive : Bool)
  | timeout
  | watcherDead
deriving DecidableEq, Repr

/-- How a `WaitAgentAlive` call ends: normal success (nil error), the
"still not alive after timeout" error, the presence watcher's own error,
the panic on a second consecutive dead report, or blocking forever because
the event trace ended (unreachable in practice: the timer always fires). -/
inductive WaitOutcome where
  | success
  | timeoutError
  | watcherError
  | panicDoubleDead
  | blocked
deriving DecidableEq, Repr

/-- The `for i := 0; i < 2; i++` select loop of `WaitAgentAlive`: an alive
change returns success at once; a dead change consumes one iteration; the
timeout and watcher-dead arms return their errors; falling out of the loop
(two dead changes) panics. -/
def WaitAgentAliveLoop : Nat → List WaitEvent → WaitOutcome
  | 0, _ => .panicDoubleDead
  | _ + 1, [] => .blocked
  | n + 1, e :: rest =>
      match e with
      | .change true => .success
      | .change false => WaitAgentAliveLoop n rest
      | .timeout => .timeoutError
      | .watcherDead => .watcherError

/-- `Machine.WaitAgentAlive`, run against the trace of select firings it
observes after subscribing its presence channel. -/
def Machine.WaitAgentAlive (events : List WaitEvent) : WaitOutcome :=
  WaitAgentAliveLoop 2 events

/-- One entry of `params.ApplicationRelationsWatchResults.Results`: the
per-result error and (as an opaque stand-in) the watcher payload the API
watcher constructor would consume. -/
structure ApplicationRelationsWatchResult where
  error : Option Err
  payload : String
deriving DecidableEq, Repr

/-- `params.ApplicationRelationsWatchResults`. -/
structure ApplicationRelationsWatchResults where
  results : List ApplicationRelationsWatchResult
deriving DecidableEq, Repr

/-- What `State.WatchRemoteApplication` returns: the not-valid rejection, a
facade-call error passed through, the "expected 1 result, got %d" error, the
embedded per-result error, or a constructed watcher (carrying the result it
was built from). -/
inductive WatchRemoteAppOutcome where
  | notValid (msg : String)
  | facadeErr (e : Err)
  | countErr (n : Nat)
  | resultErr (e : Err)
  | watcher (r : ApplicationRelationsWatchResult)
deriving DecidableEq, Repr

/-- `State.WatchRemoteApplication`: validates the application name before
anything else, then makes one facade call and inspects the results. The
first component counts facade calls made (0 or 1); `isValidApplication` is
the external `names.IsValidApplication` predicate and `facadeResponse` is
the environment's response to the single `FacadeCall`. -/
def State.WatchRemoteApplication (isValidApplication : String → Bool)
    (facadeResponse : Except Err ApplicationRelationsWatchResults)
    (service : String) : Nat × WatchRemoteAppOutcome :=
  if ¬ isValidApplication service then
    (0, .notValid ("application name \"" ++ service ++ "\" not valid"))
  else
    match facadeResponse with
    | .error e => (1, .facadeErr e)
    | .ok results =>
        match results.results with
        | [r] =>
            match r.error with
            | some e => (1, .resultErr e)
            | none => (1, .watcher r)
        | rs => (1, .countErr rs.length)

/-- Heap of `Tools` values, modelling Go pointer allocation: an address is
an index, allocation appends. Used to state that `AgentTools` hands back a
pointer to a fresh copy, never the handle's own `m.doc.Tools` pointer. -/
abbrev ToolsHeap := List Tools

/-- Pointer-level rendering of `Machine.AgentTools`' success path: given the
heap and the handle's cached `Tools` address, dereference it, allocate a
fresh cell holding a copy of the value (`tools := *m.doc.Tools`), and return
the new address (`return &tools`). `none` covers the nil pointer (NotFound)
and a dangling address (impossible for a live heap). -/
def AgentToolsAlloc (h : ToolsHeap) (toolsAddr : Option Nat) : Option (ToolsHeap × Nat) :=
  match toolsAddr with
  | none => none
  | some a =>
      match h[a]? with
      | none => none
      | some t => some (h ++ [t], h.length)

theorem Store.findId_updateId_self (st : Store) (id : Int) (d d' : machineDoc)
    (h : st.findId id = some d) : (st.updateId id d').findId id = some d' := by
  induction st with
  | nil => simp [Store.findId] at h
  | cons p rest ih =>
      obtain ⟨j, dd⟩ := p
      by_cases hj : j = id
      · subst hj
        simp [Store.updateId, Store.findId]
      · simp only [Store.findId, if_neg hj] at h
        simp only [Store.updateId, if_neg hj, Store.findId, if_neg hj]
        exact ih h

/-- C1: the spec claims `Life` is monotonic for the machine handle as well:
once Dead, no operation ever reports or records it as Alive or Dying again.
The code violates this: on a machine whose stored and cached `Life` are both
Dead, `EnsureDying` succeeds (the spec-modelled `ensureDying` is a no-op on a
Dead document, and the store keeps `Life = Dead`) yet the handle records
`Dying` in its cached doc, so `Life()` reports Dying after Dead — contradicting
both the spec and `EnsureDying`'s own doc comment "It does nothing otherwise". -/
theorem EnsureDying_on_dead_machine_caches_dying :
    Machine.EnsureDying [(0, ⟨0, "", [], Life.dead, none, 1, []⟩)]
        ⟨⟨0, "", [], Life.dead, none, 1, []⟩⟩ =
      .ok ([(0, ⟨0, "", [], Life.dead, none, 1, []⟩)],
        ⟨⟨0, "", [], Life.dying, none, 1, []⟩⟩) ∧
    Machine.Life ⟨⟨0, "", [], Life.dead, none, 1, []⟩⟩ = Life.dead ∧
    Machine.Life ⟨⟨0, "", [], Life.dying, none, 1, []⟩⟩ = Life.dying :=
  ⟨rfl, rfl, rfl⟩

/-- C2 counterexample: the claim says a single alive notification received
immediately after subscribing is never sufficient for `WaitAgentAlive` to
return success. On the trace consisting of exactly one alive presence change,
the code returns success at once. -/
theorem WaitAgentAlive_single_alive_suffices :
    Machine.WaitAgentAlive [WaitEvent.change true] = WaitOutcome.success :=
  rfl

/-- C2 (amended): `WaitAgentAlive` performs no debounce: it returns success
on the first alive notification it receives, whether or not a dead
notification preceded it; the two-iteration loop only bounds how many dead
notifications are tolerated. -/
theorem WaitAgentAlive_first_alive_succeeds (rest : List WaitEvent) :
    Machine.WaitAgentAlive (WaitEvent.change true :: rest) = WaitOutcome.success ∧
    Machine.WaitAgentAlive (WaitEvent.change false :: WaitEvent.change true :: rest) =
      WaitOutcome.success :=
  ⟨rfl, rfl⟩

/-- C3: two consecutive dead presence reports with no intervening alive are
treated as an unrecoverable invariant violation: whatever events follow
(even alive ones — no retry), the call ends in the double-dead panic, an
outcome distinct from every normal return. -/
theorem WaitAgentAlive_double_dead_fatal (rest : List WaitEvent) :
    Machine.WaitAgentAlive (WaitEvent.change false :: WaitEvent.change false :: rest) =
      WaitOutcome.panicDoubleDead ∧
    WaitOutcome.panicDoubleDead ≠ WaitOutcome.success ∧
    WaitOutcome.panicDoubleDead ≠ WaitOutcome.timeoutError ∧
    WaitOutcome.panicDoubleDead ≠ WaitOutcome.watcherError :=
  ⟨rfl, by decide, by decide, by decide⟩

/-- C4: each mutator submits at most one conditional transaction (exactly one
unless validation rejected the input first), succeeds exactly when the
`notDead` assertion holds of the stored document, and touches the cached
snapshot only after commit: on a runner error the error is returned and both
the store and the cached doc are unchanged; on success the corresponding
cached field equals the value written. -/
theorem Mutators_commit_before_cache (st : Store) (m : Machine) (id : String) (t : Tools) :
    ((Machine.SetInstanceId st m id).error.isSome →
        (Machine.SetInstanceId st m id).machine = m ∧
        (Machine.SetInstanceId st m id).store = st) ∧
    ((Machine.SetInstanceId st m id).error = none →
        (Machine.SetInstanceId st m id).machine.doc.InstanceId = id) ∧
    ((Machine.SetInstanceId st m id).error = none ↔
        ∃ d, st.findId m.doc.Id = some d ∧ d.life ≠ Life.dead) ∧
    (Machine.SetInstanceId st m id).txnRuns = 1 ∧
    ((Machine.SetAgentTools st m t).error.isSome →
        (Machine.SetAgentTools st m t).machine = m ∧
        (Machine.SetAgentTools st m t).store = st) ∧
    ((Machine.SetAgentTools st m t).error = none →
        (Machine.SetAgentTools st m t).machine.doc.tools = some t) ∧
    (Machine.SetAgentTools st m t).txnRuns ≤ 1 := by
  by_cases hv : t.Series = "" ∨ t.Arch = "" <;>
    rcases hfind : st.findId m.doc.Id with _ | d
  · simp [Machine.SetInstanceId, Machine.SetAgentTools, runNotDeadOp, hfind, hv]
  · by_cases hd : d.life = Life.dead <;>
      simp [Machine.SetInstanceId, Machine.SetAgentTools, runNotDeadOp, hfind, hv, hd]
  · simp [Machine.SetInstanceId, Machine.SetAgentTools, runNotDeadOp, hfind, hv]
  · by_cases hd : d.life = Life.dead <;>
      simp [Machine.SetInstanceId, Machine.SetAgentTools, runNotDeadOp, hfind, hv, hd]

/-- C4 witness: on a one-machine store with an Alive machine, both mutators
succeed and the cached fields equal the written values. -/
theorem Mutators_commit_before_cache_witness :
    (Machine.SetInstanceId [(0, ⟨0, "", [], Life.alive, none, 1, []⟩)]
        ⟨⟨0, "", [], Life.alive, none, 1, []⟩⟩ "i-9").machine.doc.InstanceId = "i-9" ∧
    (Machine.SetAgentTools [(0, ⟨0, "", [], Life.alive, none, 1, []⟩)]
        ⟨⟨0, "", [], Life.alive, none, 1, []⟩⟩ ⟨"trusty", "amd64", "u"⟩).machine.doc.tools =
      some ⟨"trusty", "amd64", "u"⟩ :=
  ⟨(Mutators_commit_before_cache [(0, ⟨0, "", [], Life.alive, none, 1, []⟩)]
      ⟨⟨0, "", [], Life.alive, none, 1, []⟩⟩ "i-9" ⟨"trusty", "amd64", "u"⟩).2.1 rfl,
   (Mutators_commit_before_cache [(0, ⟨0, "", [], Life.alive, none, 1, []⟩)]
      ⟨⟨0, "", [], Life.alive, none, 1, []⟩⟩ "i-9" ⟨"trusty", "amd64", "u"⟩).2.2.2.2.2.1 rfl⟩

/-- C5: round-trip — on a machine whose backing document exists and is not
Dead, `SetInstanceId "i-123"` succeeds, a following `Refresh` succeeds, and
`InstanceId` on the refreshed handle returns `"i-123"` with no error. -/
theorem SetInstanceId_Refresh_roundtrip (st : Store) (m : Machine) (d : machineDoc)
    (hfind : st.findId m.doc.Id = some d) (hnd : d.life ≠ Life.dead) :
    (Machine.SetInstanceId st m "i-123").error = none ∧
    (Machine.Refresh (Machine.SetInstanceId st m "i-123").store
        (Machine.SetInstanceId st m "i-123").machine).2 = none ∧
    Machine.InstanceId (Machine.Refresh (Machine.SetInstanceId st m "i-123").store
        (Machine.SetInstanceId st m "i-123").machine).1 = .ok "i-123" := by
  have hrun : runNotDeadOp st m.doc.Id (fun d0 => { d0 with InstanceId := "i-123" }) =
      .ok (st.updateId m.doc.Id { d with InstanceId := "i-123" }) := by
    simp [runNotDeadOp, hfind, hnd]
  have hfind' := Store.findId_updateId_self st m.doc.Id d { d with InstanceId := "i-123" } hfind
  simp [Machine.SetInstanceId, hrun, Machine.Refresh, hfind', Machine.InstanceId]

/-- C5 witness: the round-trip evaluated on a concrete one-machine store. -/
theorem SetInstanceId_Refresh_roundtrip_witness :
    Machine.InstanceId (Machine.Refresh
        (Machine.SetInstanceId [(7, ⟨7, "", [], Life.alive, none, 1, []⟩)]
          ⟨⟨7, "", [], Life.alive, none, 1, []⟩⟩ "i-123").store
        (Machine.SetInstanceId [(7, ⟨7, "", [], Life.alive, none, 1, []⟩)]
          ⟨⟨7, "", [], Life.alive, none, 1, []⟩⟩ "i-123").machine).1 = .ok "i-123" :=
  (SetInstanceId_Refresh_roundtrip [(7, ⟨7, "", [], Life.alive, none, 1, []⟩)]
    ⟨⟨7, "", [], Life.alive, none, 1, []⟩⟩ ⟨7, "", [], Life.alive, none, 1, []⟩
    rfl (by decide)).2.2

/-- C6: validation happens before any I/O — a malformed application name
makes `WatchRemoteApplication` return a not-valid error with zero facade
calls (whatever the facade would have answered), and a `Tools` value with
empty `Series` or `Arch` makes `SetAgentTools` return an error with zero
transactions submitted, leaving both the store and the cached doc unchanged. -/
theorem Validation_before_io (valid : String → Bool)
    (resp : Except Err ApplicationRelationsWatchResults) (svc : String)
    (st : Store) (m : Machine) (t : Tools) :
    (valid svc = false →
        State.WatchRemoteApplication valid resp svc =
          (0, .notValid ("application name \"" ++ svc ++ "\" not valid"))) ∧
    (t.Series = "" ∨ t.Arch = "" →
        (Machine.SetAgentTools st m t).txnRuns = 0 ∧
        (Machine.SetAgentTools st m t).error.isSome ∧
        (Machine.SetAgentTools st m t).store = st ∧
        (Machine.SetAgentTools st m t).machine = m) := by
  constructor
  · intro hv
    simp [State.WatchRemoteApplication, hv]
  · intro hv
    simp [Machine.SetAgentTools, hv]

/-- C6 witness: a concrete malformed name (rejected by the validity
predicate) and a concrete `Tools` with empty `Arch`. -/
theorem Validation_before_io_witness :
    State.WatchRemoteApplication (fun _ => false) (.ok ⟨[]⟩) "bad--name" =
      (0, .notValid ("application name \"" ++ "bad--name" ++ "\" not valid")) ∧
    (Machine.SetAgentTools [] ⟨⟨0, "", [], Life.alive, none, 1, []⟩⟩
        ⟨"trusty", "", "u"⟩).txnRuns = 0 :=
  ⟨(Validation_before_io (fun _ => false) (.ok ⟨[]⟩) "bad--name" []
      ⟨⟨0, "", [], Life.alive, none, 1, []⟩⟩ ⟨"trusty", "", "u"⟩).1 rfl,
   ((Validation_before_io (fun _ => false) (.ok ⟨[]⟩) "bad--name" []
      ⟨⟨0, "", [], Life.alive, none, 1, []⟩⟩ ⟨"trusty", "", "u"⟩).2 (Or.inr rfl)).1⟩

/-- C7: `Refresh` returns a NotFound error and leaves the cached snapshot
unchanged when the backing document no longer exists, and replaces the whole
cached snapshot with the fetched document (with no error) when it does. -/
theorem Refresh_replaces_snapshot (st : Store) (m : Machine) :
    (st.findId m.doc.Id = none →
        Machine.Refresh st m =
          (m, some (Err.notFound ("machine " ++ toString m.doc.Id)))) ∧
    (∀ d, st.findId m.doc.Id = some d → Machine.Refresh st m = (⟨d⟩, none)) := by
  constructor
  · intro h0
    simp [Machine.Refresh, h0]
  · intro d h0
    simp [Machine.Refresh, h0]

/-- C7 witness: refresh against an empty store reports NotFound and keeps the
old snapshot; refresh against a store holding a changed document adopts that
document wholesale. -/
theorem Refresh_replaces_snapshot_witness :
    Machine.Refresh [] ⟨⟨3, "i", [], Life.alive, none, 0, []⟩⟩ =
      (⟨⟨3, "i", [], Life.alive, none, 0, []⟩⟩,
        some (Err.notFound ("machine " ++ toString (3 : Int)))) ∧
    Machine.Refresh [(3, ⟨3, "x", [], Life.dying, none, 5, []⟩)]
        ⟨⟨3, "i", [], Life.alive, none, 0, []⟩⟩ =
      (⟨⟨3, "x", [], Life.dying, none, 5, []⟩⟩, none) :=
  ⟨(Refresh_replaces_snapshot [] ⟨⟨3, "i", [], Life.alive, none, 0, []⟩⟩).1 rfl,
   (Refresh_replaces_snapshot [(3, ⟨3, "x", [], Life.dying, none, 5, []⟩)]
      ⟨⟨3, "i", [], Life.alive, none, 0, []⟩⟩).2 ⟨3, "x", [], Life.dying, none, 5, []⟩ rfl⟩

/-- C8: `InstanceId` reports NotFound exactly when the cached `InstanceId`
field is the empty string and otherwise returns the cached value with no
error; hence after a successful `SetInstanceId ""` the accessor reports
NotFound, so the round-trip property does not extend to the empty string. -/
theorem InstanceId_notFound_iff_empty (st : Store) (m : Machine) :
    ((∃ s, Machine.InstanceId m = .error (Err.notFound s)) ↔ m.doc.InstanceId = "") ∧
    (m.doc.InstanceId ≠ "" → Machine.InstanceId m = .ok m.doc.InstanceId) ∧
    ((Machine.SetInstanceId st m "").error = none →
        ∃ s, Machine.InstanceId (Machine.SetInstanceId st m "").machine =
          .error (Err.notFound s)) := by
  refine ⟨?_, ?_, ?_⟩
  · by_cases he : m.doc.InstanceId = "" <;> simp [Machine.InstanceId, he]
  · intro he
    simp [Machine.InstanceId, he]
  · intro hnone
    rcases hfind : st.findId m.doc.Id with _ | d
    · simp [Machine.SetInstanceId, runNotDeadOp, hfind] at hnone
    · by_cases hd : d.life = Life.dead
      · simp [Machine.SetInstanceId, runNotDeadOp, hfind, hd] at hnone
      · simp [Machine.SetInstanceId, runNotDeadOp, hfind, hd, Machine.InstanceId]

/-- C8 witness: a machine with a non-empty cached instance id returns it, and
after `SetInstanceId ""` commits on an Alive machine the accessor reports
NotFound. -/
theorem InstanceId_notFound_iff_empty_witness :
    Machine.InstanceId ⟨⟨2, "i-5", [], Life.alive, none, 0, []⟩⟩ = .ok "i-5" ∧
    (∃ s, Machine.InstanceId
        (Machine.SetInstanceId [(2, ⟨2, "i-5", [], Life.alive, none, 0, []⟩)]
          ⟨⟨2, "i-5", [], Life.alive, none, 0, []⟩⟩ "").machine =
      .error (Err.notFound s)) :=
  ⟨(InstanceId_notFound_iff_empty [] ⟨⟨2, "i-5", [], Life.alive, none, 0, []⟩⟩).2.1
      (by decide),
   (InstanceId_notFound_iff_empty [(2, ⟨2, "i-5", [], Life.alive, none, 0, []⟩)]
      ⟨⟨2, "i-5", [], Life.alive, none, 0, []⟩⟩).2.2 rfl⟩

/-- C9: `AgentTools` reports NotFound exactly when the cached `Tools` pointer
is nil, and otherwise returns the cached value with no error; at the pointer
level the success path hands back a freshly allocated copy whose address
differs from the handle's stored address while its contents agree. -/
theorem AgentTools_nil_notFound_copy (m : Machine) (hp : ToolsHeap) (a : Nat) :
    ((∃ s, Machine.AgentTools m = .error (Err.notFound s)) ↔ m.doc.tools = none) ∧
    (∀ t, m.doc.tools = some t → Machine.AgentTools m = .ok t) ∧
    (a < hp.length →
        ∃ hp2 a2, AgentToolsAlloc hp (some a) = some (hp2, a2) ∧ a2 ≠ a ∧
          hp2[a2]? = hp[a]?) := by
  refine ⟨?_, ?_, ?_⟩
  · rcases ht : m.doc.tools with _ | t <;> simp [Machine.AgentTools, ht]
  · intro t ht
    simp [Machine.AgentTools, ht]
  · intro ha
    refine ⟨hp ++ [hp[a]], hp.length, ?_, (Nat.ne_of_lt ha).symm, ?_⟩
    · simp [AgentToolsAlloc, List.getElem?_eq_getElem ha]
    · rw [List.getElem?_concat_length, List.getElem?_eq_getElem ha]

/-- C9 witness: a machine with tools set returns them, and dereferencing
address 0 of a one-cell heap yields a fresh cell (address 1) holding an
equal value. -/
theorem AgentTools_nil_notFound_copy_witness :
    Machine.AgentTools ⟨⟨4, "", [], Life.alive, some ⟨"s", "a", "u"⟩, 0, []⟩⟩ =
      .ok ⟨"s", "a", "u"⟩ ∧
    (∃ hp2 a2, AgentToolsAlloc [(⟨"s", "a", "u"⟩ : Tools)] (some 0) = some (hp2, a2) ∧
        a2 ≠ 0 ∧ hp2[a2]? = [(⟨"s", "a", "u"⟩ : Tools)][0]?) :=
  ⟨(AgentTools_nil_notFound_copy ⟨⟨4, "", [], Life.alive, some ⟨"s", "a", "u"⟩, 0, []⟩⟩
      [] 0).2.1 ⟨"s", "a", "u"⟩ rfl,
   (AgentTools_nil_notFound_copy ⟨⟨4, "", [], Life.alive, some ⟨"s", "a", "u"⟩, 0, []⟩⟩
      [(⟨"s", "a", "u"⟩ : Tools)] 0).2.2 (by decide)⟩

/-- C10: after a facade call that itself returned no error,
`WatchRemoteApplication` errors whenever the response holds a number of
results other than one, returns the embedded error when the single result
carries one, and constructs a watcher exactly when one error-free result is
present. -/
theorem WatchRemoteApplication_result_handling (valid : String → Bool) (svc : String)
    (hv : valid svc = true) :
    (∀ results : ApplicationRelationsWatchResults, results.results.length ≠ 1 →
        (State.WatchRemoteApplication valid (.ok results) svc).2 =
          .countErr results.results.length) ∧
    (∀ r e, r.error = some e →
        State.WatchRemoteApplication valid (.ok ⟨[r]⟩) svc = (1, .resultErr e)) ∧
    (∀ r, r.error = none →
        State.WatchRemoteApplication valid (.ok ⟨[r]⟩) svc = (1, .watcher r)) ∧
    (∀ resp r, (State.WatchRemoteApplication valid resp svc).2 = .watcher r →
        resp = .ok ⟨[r]⟩ ∧ r.error = none) := by
  refine ⟨?_, ?_, ?_, ?_⟩
  · intro results hlen
    rcases results with ⟨_ | ⟨r, _ | ⟨r2, rs⟩⟩⟩
    · simp [State.WatchRemoteApplication, hv]
    · simp at hlen
    · simp [State.WatchRemoteApplication, hv]
  · intro r e he
    simp [State.WatchRemoteApplication, hv, he]
  · intro r he
    simp [State.WatchRemoteApplication, hv, he]
  · intro resp r hw
    rcases resp with e | results
    · simp [State.WatchRemoteApplication, hv] at hw
    · rcases results with ⟨_ | ⟨r1, _ | ⟨r2, rs⟩⟩⟩
      · simp [State.WatchRemoteApplication, hv] at hw
      · rcases he : r1.error with _ | e
        · simp [State.WatchRemoteApplication, hv, he] at hw
          subst hw
          exact ⟨rfl, he⟩
        · simp [State.WatchRemoteApplication, hv, he] at hw
      · simp [State.WatchRemoteApplication, hv] at hw

/-- C10 witness: with a validity predicate accepting the name, a single
error-free result yields a watcher built from it, and an empty result list
yields the expected-1-result error. -/
theorem WatchRemoteApplication_result_handling_witness :
    State.WatchRemoteApplication (fun _ => true) (.ok ⟨[⟨none, "w0"⟩]⟩) "app" =
      (1, .watcher ⟨none, "w0"⟩) ∧
    (State.WatchRemoteApplication (fun _ => true) (.ok ⟨[]⟩) "app").2 = .countErr 0 :=
  ⟨(WatchRemoteApplication_result_handling (fun _ => true) "app" rfl).2.2.1
      ⟨none, "w0"⟩ rfl,
   (WatchRemoteApplication_result_handling (fun _ => true) "app" rfl).1 ⟨[]⟩
      (by decide)⟩

end Juju
